import Mathlib

/-!
Verification of the caching and rate-limiting core of the AdSense MCP server.

Shallow embedding of:
  * `src/adsense/cache.ts`   — `CacheTTL`, `CacheManager` (SQLite-backed TTL cache);
  * `src/adsense/rateLimiter.ts` — `RateLimiter.throttle`, `withRetry`;
  * `src/adsense/client.ts`  — `AdSenseClient.getReportTTL`, `resolveAccountId`,
    `generateCsvReport` orchestration.

Modelling conventions:
  * Timestamps are integers (milliseconds since epoch), as Lean `Int` for the
    rate limiter (subtraction appears in the source) and `Nat` for the cache.
  * `JSON.stringify(params)` is environmental; operations take the serialized
    parameter string directly.
  * The MD5 hex digest of the serialized parameters is modelled by the
    serialized string itself: a deterministic digest, assumed collision-free
    (no claim depends on hash collisions, only on determinism).
  * The SQLite table `report_cache` is a list of rows; the UNIQUE constraint on
    `cache_key` together with `INSERT OR REPLACE` is modelled by removing any
    row with the same key and appending the fresh row.
  * `await sleep(ms)` is modelled by recording the slept duration and advancing
    the clock by it; `Date.now()` after the sleep is `now + slept`.
  * Client operations are modelled with an explicit event trace (`Ev`) so that
    cache reads/writes, throttling and upstream calls are observable.
-/

/-! TTL values in milliseconds, from `CacheTTL` in `src/adsense/cache.ts`. -/

namespace CacheTTL

def TODAY_EARNINGS : Nat := 5 * 60 * 1000

def YESTERDAY_EARNINGS : Nat := 60 * 60 * 1000

def HISTORICAL_REPORT : Nat := 24 * 60 * 60 * 1000

def ACCOUNTS : Nat := 24 * 60 * 60 * 1000

def SITES : Nat := 60 * 60 * 1000

def ALERTS : Nat := 15 * 60 * 1000

def POLICY_ISSUES : Nat := 30 * 60 * 1000

def PAYMENTS : Nat := 6 * 60 * 60 * 1000

def AD_UNITS : Nat := 60 * 60 * 1000

end CacheTTL

/-- One row of the `report_cache` table (the AUTOINCREMENT `id` column plays no
role in any query of the source and is omitted). -/
structure CacheRow where
  cache_key : String
  account_id : String
  query_hash : String
  response_data : String
  created_at : Nat
  expires_at : Nat
deriving DecidableEq

/-- `CacheManager.generateCacheKey`: digest of the serialized parameters,
prefixed by the operation name and a colon.  The MD5 hex digest is modelled by
the serialized string itself (deterministic, collision-free stand-in). -/
def generateCacheKey (opName : String) (paramsJson : String) : String :=
  opName ++ ":" ++ paramsJson

namespace CacheManager

/-- `CacheManager.get` (`cache.ts` lines 92–105): look the key up in
`report_cache`; return the payload only when `expires_at > now`. -/
def get (table : List CacheRow) (opName : String) (paramsJson : String)
    (now : Nat) : Option String :=
  let cacheKey := generateCacheKey opName paramsJson
  match table.find? (fun r => decide (r.cache_key = cacheKey)) with
  | some row => if row.expires_at > now then some row.response_data else none
  | none => none

/-- `CacheManager.set` (`cache.ts` lines 110–122): `INSERT OR REPLACE` of a row
with `created_at = now` and `expires_at = now + ttl`; under the UNIQUE
constraint on `cache_key` this removes any existing row with the same key. -/
def set (table : List CacheRow) (opName : String) (paramsJson : String)
    (data : String) (ttl : Nat) (accountId : String) (now : Nat) :
    List CacheRow :=
  let cacheKey := generateCacheKey opName paramsJson
  table.filter (fun r => decide (¬ r.cache_key = cacheKey)) ++
    [{ cache_key := cacheKey, account_id := accountId, query_hash := paramsJson,
       response_data := data, created_at := now, expires_at := now + ttl }]

/-- `CacheManager.clearExpired` (`cache.ts` lines 127–132):
`DELETE FROM report_cache WHERE expires_at < now`; returns the remaining table
and the number of deleted rows (`result.changes`). -/
def clearExpired (table : List CacheRow) (now : Nat) : List CacheRow × Nat :=
  (table.filter (fun r => decide (¬ r.expires_at < now)),
   table.countP (fun r => decide (r.expires_at < now)))

/-- `CacheManager.clearAccount` (`cache.ts` lines 137–142). -/
def clearAccount (table : List CacheRow) (accountId : String) :
    List CacheRow × Nat :=
  (table.filter (fun r => decide (¬ r.account_id = accountId)),
   table.countP (fun r => decide (r.account_id = accountId)))

/-- Statistics snapshot returned by `CacheManager.getStats`. -/
structure Stats where
  totalEntries : Nat
  totalSize : Nat
  expiredCount : Nat
deriving DecidableEq

/-- `CacheManager.getStats` (`cache.ts` lines 167–188): row count, summed
payload length, and count of rows with `expires_at < now`. -/
def getStats (table : List CacheRow) (now : Nat) : Stats :=
  { totalEntries := table.length
    totalSize := (table.map (fun r => r.response_data.length)).sum
    expiredCount := table.countP (fun r => decide (r.expires_at < now)) }

end CacheManager

/-! ## Rate limiter (`src/adsense/rateLimiter.ts`) -/

def MAX_REQUESTS_PER_MINUTE : Nat := 100

def MAX_RETRIES : Nat := 5

def BASE_DELAY_MS : Nat := 1000

def MAX_DELAY_MS : Nat := 32000

/-- Outcome of one `RateLimiter.throttle()` call: how long the caller was
suspended and the updated `requestTimestamps` window. -/
structure ThrottleResult where
  wait : Int
  window : List Int
deriving DecidableEq

namespace RateLimiter

/-- `RateLimiter.throttle` (`rateLimiter.ts` lines 21–41): prune timestamps to
the trailing 60,000 ms; when the pruned window is at or above
`MAX_REQUESTS_PER_MINUTE`, sleep `oldest + 60000 - now + 100` ms when that is
positive; finally append `Date.now()` (i.e. `now` plus the slept duration). -/
def throttle (requestTimestamps : List Int) (now : Int) : ThrottleResult :=
  let oneMinuteAgo := now - 60000
  let pruned := requestTimestamps.filter (fun ts => decide (oneMinuteAgo < ts))
  if MAX_REQUESTS_PER_MINUTE ≤ pruned.length then
    let oldestInWindow := pruned.headD 0
    let waitTime := oldestInWindow + 60000 - now + 100
    let slept := if 0 < waitTime then waitTime else 0
    { wait := slept, window := pruned ++ [now + slept] }
  else
    { wait := 0, window := pruned ++ [now] }

/-- `RateLimiter.getRequestCount` (`rateLimiter.ts` lines 46–49). -/
def getRequestCount (requestTimestamps : List Int) (now : Int) : Nat :=
  (requestTimestamps.filter (fun ts => decide (now - 60000 < ts))).length

end RateLimiter

/-- Back-to-back throttled calls: each call runs `throttle` at the current
clock and the clock advances by the slept duration before the next call
(callers issue requests with no other elapsed time between them). -/
def throttleRun : Nat → List Int × Int → List Int × Int
  | 0, s => s
  | n + 1, (w, clock) =>
    let r := RateLimiter.throttle w clock
    throttleRun n (r.window, clock + r.wait)

/-! ## Retry with exponential backoff (`withRetry`, `rateLimiter.ts` 62–109) -/

/-- The `code` property of a thrown JavaScript error: a number (HTTP-like
status) or a string (transport error code such as `ECONNRESET`). -/
inductive JsCode where
  | num : Int → JsCode
  | str : String → JsCode
deriving DecidableEq

/-- Shape of a thrown error as inspected by `withRetry`: optional `code`,
`status` and `message` properties (absent modelled as `none`). -/
structure JsError where
  code : Option JsCode
  status : Option Int
  message : Option String
deriving DecidableEq

/-- JavaScript `hay.includes(sub)` on the character lists of the strings:
`sub` occurs contiguously in `hay`. -/
def hasSubstring (sub : List Char) : List Char → Bool
  | [] => sub.isEmpty
  | c :: t => sub.isPrefixOf (c :: t) || hasSubstring sub t

/-- `s.includes(sub)` for strings. -/
def strIncludes (s : String) (sub : String) : Bool :=
  hasSubstring sub.data s.data

/-- `error.message?.includes(sub)` used as a boolean: `undefined` when
`message` is absent, which is falsy in the `||` chain. -/
def msgIncludes (e : JsError) (sub : String) : Bool :=
  match e.message with
  | some m => strIncludes m sub
  | none => false

/-- `isRateLimited` test inside `withRetry` (`rateLimiter.ts` 74–79). -/
def isRateLimited (e : JsError) : Bool :=
  decide (e.code = some (JsCode.num 429)) ||
  decide (e.status = some 429) ||
  msgIncludes e "quota" ||
  msgIncludes e "rate limit" ||
  msgIncludes e "RATE_LIMIT_EXCEEDED"

/-- `isRetryable` test inside `withRetry` (`rateLimiter.ts` 81–88). -/
def isRetryable (e : JsError) : Bool :=
  isRateLimited e ||
  decide (e.code = some (JsCode.num 503)) ||
  decide (e.code = some (JsCode.num 500)) ||
  decide (e.status = some 503) ||
  decide (e.status = some 500) ||
  decide (e.code = some (JsCode.str "ECONNRESET")) ||
  decide (e.code = some (JsCode.str "ETIMEDOUT"))

/-- Backoff delay computed at a given 0-based attempt index
(`rateLimiter.ts` 95–98): `min(BASE_DELAY_MS * 2^attempt + jitter, MAX_DELAY_MS)`
where `jitter attempt` models the `Math.random() * 1000` draw of that
iteration (a value in `[0, 1000)`). -/
def retryDelay (jitter : Nat → Nat) (attempt : Nat) : Nat :=
  min (BASE_DELAY_MS * 2 ^ attempt + jitter attempt) MAX_DELAY_MS

/-- Observable outcome of a `withRetry` execution: the final result (value or
re-raised error), the list of backoff delays slept between attempts, and how
many times the operation was invoked. -/
structure RetryTrace (T : Type) where
  result : Except JsError T
  delays : List Nat
  attemptsUsed : Nat

/-- Error thrown by the unreachable-for-positive-retries final line of
`withRetry` (`throw lastError || new Error('Max retries exceeded')` with no
attempt made). -/
def maxRetriesError : JsError :=
  { code := none, status := none, message := some "Max retries exceeded" }

/-- The `for` loop of `withRetry`, one iteration per unit of `fuel`
(`fuel = retries - attempt` iterations remain).  `operation k` is the outcome
of the `(k+1)`-th invocation of the wrapped operation. -/
def withRetryGo {T : Type} (operation : Nat → Except JsError T)
    (jitter : Nat → Nat) (retries : Nat) : Nat → Nat → RetryTrace T
  | _, 0 => { result := Except.error maxRetriesError, delays := [], attemptsUsed := 0 }
  | attempt, fuel + 1 =>
    match operation attempt with
    | Except.ok v => { result := Except.ok v, delays := [], attemptsUsed := 1 }
    | Except.error e =>
      if isRetryable e = false ∨ attempt = retries - 1 then
        { result := Except.error e, delays := [], attemptsUsed := 1 }
      else
        let r := withRetryGo operation jitter retries (attempt + 1) fuel
        { result := r.result, delays := retryDelay jitter attempt :: r.delays,
          attemptsUsed := r.attemptsUsed + 1 }

/-- `withRetry(operation)` with the default `retries = MAX_RETRIES = 5`. -/
def withRetry {T : Type} (operation : Nat → Except JsError T)
    (jitter : Nat → Nat) : RetryTrace T :=
  withRetryGo operation jitter MAX_RETRIES 0 MAX_RETRIES

/-! ## Client layer (`src/adsense/client.ts`) -/

/-- An AdSense account as returned by the accounts listing; only the `name`
field (of the form `accounts/pub-XXXX`) is consulted by the core. -/
structure AdSenseAccount where
  name : String
deriving DecidableEq

/-- JavaScript truthiness of an optional string argument: `undefined` and the
empty string are falsy. -/
def jsTruthy : Option String → Bool
  | none => false
  | some s => decide (¬ s = "")

/-- JavaScript `s.startsWith(pre)`, on the character lists of the strings. -/
def strStartsWith (s : String) (pre : String) : Bool :=
  pre.data.isPrefixOf s.data

/-- `AdSenseClient.getReportTTL` (`client.ts`): pick the cache TTL from the
report date range, relative to the process-computed `today` and `yesterday`
date strings (`new Date().toISOString().split('T')[0]` and the same for the
day before, both environmental inputs here). -/
def getReportTTL (todayStr : String) (yesterdayStr : String)
    (startDate : String) (endDate : String) : Nat :=
  if endDate = todayStr ∨ startDate = todayStr then
    CacheTTL.TODAY_EARNINGS
  else if endDate = yesterdayStr then
    CacheTTL.YESTERDAY_EARNINGS
  else
    CacheTTL.HISTORICAL_REPORT

/-- `AdSenseClient.resolveAccountId` (`client.ts` 156–173): explicit parameter,
else configured default, else the first account of the (cached) accounts
listing; explicit and default identifiers are normalized to the `accounts/`
prefixed form.  With no candidate at all, throws
`Error('No AdSense accounts found')` — a locally raised error (modelled as
`Except.error` carrying the message), not an upstream API error. -/
def resolveAccountId (explicitId : Option String)
    (defaultAccountId : Option String) (accounts : List AdSenseAccount) :
    Except String String :=
  if jsTruthy explicitId then
    let e := explicitId.getD ""
    Except.ok (if strStartsWith e "accounts/" then e else "accounts/" ++ e)
  else if jsTruthy defaultAccountId then
    let d := defaultAccountId.getD ""
    Except.ok (if strStartsWith d "accounts/" then d else "accounts/" ++ d)
  else
    match accounts with
    | [] => Except.error "No AdSense accounts found"
    | a :: _ => Except.ok a.name

/-- Observable side effects of a client operation, in order. -/
inductive Ev where
  | cacheGet (key : String) (hit : Bool)
  | throttle
  | upstream (endpoint : String)
  | cacheSet (key : String) (ttl : Nat)
deriving DecidableEq

/-- `AdSenseClient.generateReport` (`client.ts` 397–458), success path:
compute the TTL from the date range, try the cache under key
`report:<serialized query with resolved account>`; on a hit return the cached
payload with no throttle and no upstream call; on a miss throttle, invoke the
upstream report generation (through `withRetry`), write the response through
the cache under the selected TTL, and return it.  `paramsJson` is the
serialized query including the resolved account; `upstreamResp` is the
serialized successful upstream response. -/
def generateReport (table : List CacheRow) (todayStr yesterdayStr : String)
    (startDate endDate : String) (paramsJson : String) (resolvedPub : String)
    (upstreamResp : String) (now : Nat) :
    String × List CacheRow × List Ev :=
  let ttl := getReportTTL todayStr yesterdayStr startDate endDate
  let key := generateCacheKey "report" paramsJson
  match CacheManager.get table "report" paramsJson now with
  | some cached => (cached, table, [Ev.cacheGet key true])
  | none =>
    (upstreamResp,
     CacheManager.set table "report" paramsJson upstreamResp ttl resolvedPub now,
     [Ev.cacheGet key false, Ev.throttle,
      Ev.upstream "accounts.reports.generate", Ev.cacheSet key ttl])

/-- `AdSenseClient.generateCsvReport` (`client.ts` 463–496), success path:
resolve the account, throttle, invoke the upstream CSV generation (through
`withRetry`) and return its data.  The source performs no cache read and no
cache write in this operation; the table passes through untouched and the
event trace contains no cache events.  `queryJson` is the serialized query
(used only to build the upstream request parameters). -/
def generateCsvReport (table : List CacheRow) (explicitId : Option String)
    (defaultAccountId : Option String) (accounts : List AdSenseAccount)
    (queryJson : String) (upstreamCsv : String) (now : Nat) :
    Except String (String × List CacheRow × List Ev) :=
  match resolveAccountId explicitId defaultAccountId accounts with
  | Except.error msg => Except.error msg
  | Except.ok _resolvedId =>
    Except.ok (upstreamCsv, table,
      [Ev.throttle, Ev.upstream "accounts.reports.generateCsv"])

/-! ## Concrete fixtures used by witnesses and counterexamples -/

/-- A plain HTTP 429 rate-limit error. -/
def e429 : JsError :=
  { code := some (JsCode.num 429), status := none, message := none }

/-- A 404-style error: not rate-limited, not a server error, not a transport
error. -/
def e404 : JsError :=
  { code := some (JsCode.num 404), status := none,
    message := some "Requested entity was not found" }

/-- A single cache row, keyed like a `set` for operation `o` with serialized
parameters `p` would key it. -/
def rowAt (o p a qh d : String) (c e : Nat) : CacheRow :=
  { cache_key := generateCacheKey o p, account_id := a, query_hash := qh,
    response_data := d, created_at := c, expires_at := e }

/-- A valid (far-future) cached row for a CSV report query, used to show that
`generateCsvReport` ignores the cache. -/
def csvRow : CacheRow := rowAt "csvReport" "q1" "pub-1" "q1" "CACHED" 0 1000000

/-! ## Helper lemmas -/

/-- After removing every row with key `k` and appending a row whose key is `k`,
a lookup by `k` finds exactly the appended row. -/
theorem find?_filter_append_self (l : List CacheRow) (k : String) (r : CacheRow)
    (hr : r.cache_key = k) :
    ((l.filter (fun x => decide (¬ x.cache_key = k))) ++ [r]).find?
        (fun x => decide (x.cache_key = k)) = some r := by
  induction l with
  | nil => simp [List.find?, hr]
  | cons a tl ih =>
    by_cases h : a.cache_key = k
    · simpa [List.filter_cons, h] using ih
    · simpa [List.filter_cons, h, List.find?] using ih

/-- Rows surviving the key-`k` removal never match key `k`. -/
theorem countP_filter_not_key (l : List CacheRow) (k : String) :
    (l.filter (fun x => decide (¬ x.cache_key = k))).countP
        (fun x => decide (x.cache_key = k)) = 0 := by
  induction l with
  | nil => simp
  | cons a tl ih =>
    by_cases h : a.cache_key = k
    · simpa [List.filter_cons, h] using ih
    · simpa [List.filter_cons, List.countP_cons, h] using ih

/-- A `get` immediately following a `set` on the same key sees exactly the
written row: the payload while `expires_at > t`, and nothing from then on. -/
theorem set_then_get (table : List CacheRow)
    (opName paramsJson data accountId : String) (ttl now t : Nat) :
    CacheManager.get
        (CacheManager.set table opName paramsJson data ttl accountId now)
        opName paramsJson t
      = if t < now + ttl then some data else none := by
  simp only [CacheManager.get, CacheManager.set]
  rw [find?_filter_append_self table (generateCacheKey opName paramsJson) _ rfl]

/-! ## Claim theorems -/

/-- C1: for every operation prefix, parameter set, payload, ttl and account,
after `set(O,P,R,T,acct)` the written entry has `createdAt = now` and
`expiresAt = now + T`; a `get(O,P)` at any time strictly before
`createdAt + T` returns `R`, a `get(O,P)` at any time `t ≥ createdAt + T`
returns absent, and the entry is usable exactly when the query time is below
`expiresAt`. -/
theorem cache_set_then_get (table : List CacheRow)
    (opName paramsJson data accountId : String) (ttl now t : Nat) :
    (CacheManager.set table opName paramsJson data ttl accountId now).find?
        (fun r => decide (r.cache_key = generateCacheKey opName paramsJson))
      = some { cache_key := generateCacheKey opName paramsJson,
               account_id := accountId, query_hash := paramsJson,
               response_data := data, created_at := now,
               expires_at := now + ttl } ∧
    CacheManager.get
        (CacheManager.set table opName paramsJson data ttl accountId now)
        opName paramsJson t
      = if t < now + ttl then some data else none := by
  constructor
  · simp only [CacheManager.set]
    exact find?_filter_append_self table (generateCacheKey opName paramsJson) _ rfl
  · exact set_then_get table opName paramsJson data accountId ttl now t

/-- C2: the report TTL selector returns the TODAY TTL (300,000 ms) when either
date bound equals the process-computed current date string, otherwise the
YESTERDAY TTL (3,600,000 ms) when the end bound equals the day-before string,
otherwise the HISTORICAL TTL (86,400,000 ms). -/
theorem getReportTTL_policy (todayStr yesterdayStr startDate endDate : String) :
    getReportTTL todayStr yesterdayStr startDate endDate
      = if startDate = todayStr ∨ endDate = todayStr then 300000
        else if endDate = yesterdayStr then 3600000
        else 86400000 := by
  by_cases h1 : endDate = todayStr <;> by_cases h2 : startDate = todayStr <;>
    by_cases h3 : endDate = yesterdayStr <;>
    simp [getReportTTL, h1, h2, h3, CacheTTL.TODAY_EARNINGS,
      CacheTTL.YESTERDAY_EARNINGS, CacheTTL.HISTORICAL_REPORT]

/-- C3 counterexample: with today = 2026-10-11, yesterday = 2026-10-10 and
seven days ago = 2026-10-04, `selectReportTTL(sevenDaysAgo, yesterday)` is the
YESTERDAY TTL, not the HISTORICAL TTL the claim asserts: the end bound equals
yesterday, so the selector's second branch fires. -/
theorem getReportTTL_sevenDaysAgo_counterexample :
    getReportTTL "2026-10-11" "2026-10-10" "2026-10-04" "2026-10-10"
        = CacheTTL.YESTERDAY_EARNINGS ∧
    ¬ getReportTTL "2026-10-11" "2026-10-10" "2026-10-04" "2026-10-10"
        = CacheTTL.HISTORICAL_REPORT := by
  constructor
  · rfl
  · decide

/-- C3 amended: `selectReportTTL(today, today)` is the TODAY TTL;
`selectReportTTL(sevenDaysAgo, yesterday)` is the YESTERDAY TTL (not
HISTORICAL, since the end bound equals yesterday); and
`selectReportTTL(anyDate, yesterday)` is the YESTERDAY TTL for any start date
that is not today, whenever the end bound equals yesterday and yesterday is
not today. -/
theorem getReportTTL_scenarios_amended
    (todayStr yesterdayStr sevenDaysAgo anyDate : String)
    (h1 : ¬ sevenDaysAgo = todayStr) (h2 : ¬ yesterdayStr = todayStr)
    (h3 : ¬ anyDate = todayStr) :
    getReportTTL todayStr yesterdayStr todayStr todayStr
        = CacheTTL.TODAY_EARNINGS ∧
    getReportTTL todayStr yesterdayStr sevenDaysAgo yesterdayStr
        = CacheTTL.YESTERDAY_EARNINGS ∧
    getReportTTL todayStr yesterdayStr anyDate yesterdayStr
        = CacheTTL.YESTERDAY_EARNINGS := by
  refine ⟨?_, ?_, ?_⟩ <;> simp [getReportTTL, h1, h2, h3]

/-- C3 amended, instantiated at concrete calendar dates. -/
theorem getReportTTL_scenarios_instance :
    getReportTTL "2026-10-11" "2026-10-10" "2026-10-11" "2026-10-11"
        = CacheTTL.TODAY_EARNINGS ∧
    getReportTTL "2026-10-11" "2026-10-10" "2026-10-04" "2026-10-10"
        = CacheTTL.YESTERDAY_EARNINGS ∧
    getReportTTL "2026-10-11" "2026-10-10" "2026-09-01" "2026-10-10"
        = CacheTTL.YESTERDAY_EARNINGS :=
  getReportTTL_scenarios_amended "2026-10-11" "2026-10-10" "2026-10-04"
    "2026-09-01" (by decide) (by decide) (by decide)

/-- C8: two successive `set` calls on the same (operation, params) key leave
exactly one row under that key; a `get` while the second entry is valid
returns the second payload under the second TTL, and the first payload is not
retrievable at any time. -/
theorem cache_upsert_overwrite (table : List CacheRow)
    (opName paramsJson d1 d2 a1 a2 : String) (t1 t2 n1 n2 t : Nat)
    (hne : ¬ d1 = d2) :
    ((CacheManager.set (CacheManager.set table opName paramsJson d1 t1 a1 n1)
          opName paramsJson d2 t2 a2 n2).countP
        (fun r => decide (r.cache_key = generateCacheKey opName paramsJson))
      = 1) ∧
    (CacheManager.get
        (CacheManager.set (CacheManager.set table opName paramsJson d1 t1 a1 n1)
          opName paramsJson d2 t2 a2 n2) opName paramsJson t
      = if t < n2 + t2 then some d2 else none) ∧
    ¬ CacheManager.get
        (CacheManager.set (CacheManager.set table opName paramsJson d1 t1 a1 n1)
          opName paramsJson d2 t2 a2 n2) opName paramsJson t
      = some d1 := by
  refine ⟨?_, set_then_get _ opName paramsJson d2 a2 t2 n2 t, ?_⟩
  · simp only [CacheManager.set]
    rw [List.countP_append, countP_filter_not_key]
    simp [List.countP_cons]
  · rw [set_then_get _ opName paramsJson d2 a2 t2 n2 t]
    by_cases ht : t < n2 + t2 <;> simp [ht]
    exact fun h => hne h.symm

set_option maxRecDepth 100000 in
/-- C4: every `throttle()` call prunes the window to timestamps strictly
within the trailing 60,000 ms and appends the post-wait current time; at or
above the quota of 100 it sleeps `(oldest + 60000) - now + 100` ms when that
is positive, otherwise it sleeps nothing; the wait is never negative and the
call never rejects (the function is total).  For 101 back-to-back calls
starting at clock 0, the 101st call sleeps 60,100 ms, so it is admitted only
once the 1st call's timestamp (0) is at least 60,000 ms old. -/
theorem throttle_spec (w : List Int) (now : Int) :
    (RateLimiter.throttle w now).window
      = w.filter (fun ts => decide (now - 60000 < ts))
          ++ [now + (RateLimiter.throttle w now).wait] ∧
    (RateLimiter.throttle w now).wait
      = (if MAX_REQUESTS_PER_MINUTE
             ≤ (w.filter (fun ts => decide (now - 60000 < ts))).length then
           if 0 < (w.filter (fun ts => decide (now - 60000 < ts))).headD 0
                    + 60000 - now + 100 then
             (w.filter (fun ts => decide (now - 60000 < ts))).headD 0
               + 60000 - now + 100
           else 0
         else 0) ∧
    0 ≤ (RateLimiter.throttle w now).wait ∧
    ((throttleRun 100 ([], 0)).2 = 0 ∧
     (throttleRun 100 ([], 0)).1.headD 0 = 0 ∧
     (RateLimiter.throttle (throttleRun 100 ([], 0)).1
         (throttleRun 100 ([], 0)).2).wait = 60100 ∧
     (throttleRun 100 ([], 0)).1.headD 0 + 60000
       ≤ (throttleRun 100 ([], 0)).2
           + (RateLimiter.throttle (throttleRun 100 ([], 0)).1
               (throttleRun 100 ([], 0)).2).wait) := by
  refine ⟨?_, ?_, ?_, ?_⟩
  · unfold RateLimiter.throttle
    by_cases h : MAX_REQUESTS_PER_MINUTE
        ≤ (w.filter (fun ts => decide (now - 60000 < ts))).length <;>
      simp [h]
  · unfold RateLimiter.throttle
    by_cases h : MAX_REQUESTS_PER_MINUTE
        ≤ (w.filter (fun ts => decide (now - 60000 < ts))).length <;>
      simp [h]
  · unfold RateLimiter.throttle
    by_cases h : MAX_REQUESTS_PER_MINUTE
        ≤ (w.filter (fun ts => decide (now - 60000 < ts))).length <;>
      simp [h]
    split_ifs with h2 <;> omega
  · decide

/-- The retry loop invokes the operation at most `fuel` more times. -/
theorem withRetryGo_attempts_le {T : Type} (op : Nat → Except JsError T)
    (jitter : Nat → Nat) (retries : Nat) :
    ∀ (fuel attempt : Nat),
      (withRetryGo op jitter retries attempt fuel).attemptsUsed ≤ fuel := by
  intro fuel
  induction fuel with
  | zero => intro attempt; simp [withRetryGo]
  | succ fuel ih =>
    intro attempt
    cases hop : op attempt with
    | ok v => simp [withRetryGo, hop]
    | error e =>
      by_cases hc : isRetryable e = false ∨ attempt = retries - 1
      · simp [withRetryGo, hop, hc]
      · simp only [withRetryGo, hop, if_neg hc]
        exact Nat.succ_le_succ (ih (attempt + 1))

/-- The `i`-th delay recorded by the retry loop started at `attempt` is the
backoff delay of attempt `attempt + i`. -/
theorem withRetryGo_delays_get {T : Type} (op : Nat → Except JsError T)
    (jitter : Nat → Nat) (retries : Nat) :
    ∀ (fuel attempt i : Nat),
      i < (withRetryGo op jitter retries attempt fuel).delays.length →
      (withRetryGo op jitter retries attempt fuel).delays.get? i
        = some (retryDelay jitter (attempt + i)) := by
  intro fuel
  induction fuel with
  | zero => intro attempt i h; simp [withRetryGo] at h
  | succ fuel ih =>
    intro attempt i h
    cases hop : op attempt with
    | ok v => simp [withRetryGo, hop] at h
    | error e =>
      by_cases hc : isRetryable e = false ∨ attempt = retries - 1
      · simp [withRetryGo, hop, hc] at h
      · cases i with
        | zero => simp [withRetryGo, hop, hc]
        | succ i =>
          simp only [withRetryGo, hop, if_neg hc, List.length_cons,
            Nat.add_lt_add_iff_right] at h
          simp only [withRetryGo, hop, if_neg hc, List.get?_cons_succ]
          have harith : attempt + (i + 1) = attempt + 1 + i := by omega
          rw [harith]
          exact ih (attempt + 1) i h

/-- C5: in every `withRetry` run, the delay slept after the retryable failure
of 0-based attempt `i` equals `min(32000, 1000 * 2^i + j)` where `j` is that
iteration's jitter draw (a value below 1000); the operation is invoked at most
5 times; and when all 5 attempts fail with retryable errors the 5th (last
encountered) error is re-raised after exactly 4 backoff delays. -/
theorem withRetry_backoff_spec (T : Type) (op : Nat → Except JsError T)
    (jitter : Nat → Nat) (e : Nat → JsError)
    (hj : ∀ k, jitter k < 1000)
    (hop : ∀ k, k < 5 → op k = Except.error (e k))
    (hr : ∀ k, k < 4 → isRetryable (e k) = true) :
    (∀ (op2 : Nat → Except JsError T) (j2 : Nat → Nat) (i : Nat),
        i < (withRetry op2 j2).delays.length →
        (withRetry op2 j2).delays.get? i
          = some (min 32000 (1000 * 2 ^ i + j2 i))) ∧
    (∀ (op2 : Nat → Except JsError T) (j2 : Nat → Nat),
        (withRetry op2 j2).attemptsUsed ≤ 5) ∧
    (withRetry op jitter).attemptsUsed = 5 ∧
    (withRetry op jitter).result = Except.error (e 4) ∧
    (withRetry op jitter).delays
      = [min 32000 (1000 * 2 ^ 0 + jitter 0),
         min 32000 (1000 * 2 ^ 1 + jitter 1),
         min 32000 (1000 * 2 ^ 2 + jitter 2),
         min 32000 (1000 * 2 ^ 3 + jitter 3)] ∧
    (∀ k, jitter k < 1000) := by
  have h0 := hop 0 (by norm_num)
  have h1 := hop 1 (by norm_num)
  have h2 := hop 2 (by norm_num)
  have h3 := hop 3 (by norm_num)
  have h4 := hop 4 (by norm_num)
  have r0 := hr 0 (by norm_num)
  have r1 := hr 1 (by norm_num)
  have r2 := hr 2 (by norm_num)
  have r3 := hr 3 (by norm_num)
  refine ⟨?_, ?_, ?_, ?_, ?_, hj⟩
  · intro op2 j2 i hlen
    have hgen := withRetryGo_delays_get op2 j2 MAX_RETRIES MAX_RETRIES 0 i hlen
    simpa [withRetry, retryDelay, BASE_DELAY_MS, MAX_DELAY_MS,
      Nat.min_comm] using hgen
  · intro op2 j2
    have hle := withRetryGo_attempts_le op2 j2 MAX_RETRIES MAX_RETRIES 0
    simpa [withRetry, MAX_RETRIES] using hle
  · simp [withRetry, withRetryGo, MAX_RETRIES, h0, h1, h2, h3, h4,
      r0, r1, r2, r3]
  · simp [withRetry, withRetryGo, MAX_RETRIES, h0, h1, h2, h3, h4,
      r0, r1, r2, r3]
  · simp [withRetry, withRetryGo, MAX_RETRIES, h0, h1, h2, h3, h4,
      r0, r1, r2, r3, retryDelay, BASE_DELAY_MS, MAX_DELAY_MS, Nat.min_comm]

/-- C5 witness: all five attempts fail with an HTTP 429; the operation is
invoked exactly 5 times and the last error is re-raised. -/
theorem withRetry_backoff_instance :
    (withRetry (fun _ => (Except.error e429 : Except JsError Unit))
        (fun _ => 0)).attemptsUsed = 5 ∧
    (withRetry (fun _ => (Except.error e429 : Except JsError Unit))
        (fun _ => 0)).result = Except.error e429 := by
  have h := withRetry_backoff_spec Unit
    (fun _ => (Except.error e429 : Except JsError Unit)) (fun _ => 0)
    (fun _ => e429) (fun _ => by norm_num) (fun _ _ => rfl)
    (fun _ _ => (by decide : isRetryable e429 = true))
  exact ⟨h.2.2.1, h.2.2.2.1⟩

/-- C6: a failure is classified retryable exactly when it is an HTTP 429 by
`code` or `status`, carries a message mentioning quota / rate limit /
RATE_LIMIT_EXCEEDED, is an HTTP 500 or 503 by `code` or `status`, or is an
`ECONNRESET` / `ETIMEDOUT` transport error; any other failure is re-raised by
`withRetry` on the first attempt, with no delay, no further attempts, and the
error value unchanged. -/
theorem retry_classification_spec (T : Type) (op : Nat → Except JsError T)
    (jitter : Nat → Nat) (e : JsError)
    (hop : op 0 = Except.error e) (hnr : isRetryable e = false) :
    (withRetry op jitter).result = Except.error e ∧
    (withRetry op jitter).delays = [] ∧
    (withRetry op jitter).attemptsUsed = 1 ∧
    (∀ e2 : JsError, isRetryable e2 = true ↔
      (e2.code = some (JsCode.num 429) ∨ e2.status = some 429 ∨
       msgIncludes e2 "quota" = true ∨ msgIncludes e2 "rate limit" = true ∨
       msgIncludes e2 "RATE_LIMIT_EXCEEDED" = true ∨
       e2.code = some (JsCode.num 500) ∨ e2.code = some (JsCode.num 503) ∨
       e2.status = some 500 ∨ e2.status = some 503 ∨
       e2.code = some (JsCode.str "ECONNRESET") ∨
       e2.code = some (JsCode.str "ETIMEDOUT"))) := by
  refine ⟨?_, ?_, ?_, ?_⟩
  · simp [withRetry, withRetryGo, MAX_RETRIES, hop, hnr]
  · simp [withRetry, withRetryGo, MAX_RETRIES, hop, hnr]
  · simp [withRetry, withRetryGo, MAX_RETRIES, hop, hnr]
  · intro e2
    simp only [isRetryable, isRateLimited, Bool.or_eq_true, decide_eq_true_eq]
    tauto

/-- C6 witness: a 404-style error is raised on the first attempt with zero
delay and its content untouched. -/
theorem retry_classification_instance :
    (withRetry (fun _ => (Except.error e404 : Except JsError Unit))
        (fun _ => 0)).result = Except.error e404 ∧
    (withRetry (fun _ => (Except.error e404 : Except JsError Unit))
        (fun _ => 0)).delays = [] ∧
    (withRetry (fun _ => (Except.error e404 : Except JsError Unit))
        (fun _ => 0)).attemptsUsed = 1 := by
  have h := retry_classification_spec Unit
    (fun _ => (Except.error e404 : Except JsError Unit)) (fun _ => 0) e404
    rfl (by decide)
  exact ⟨h.1, h.2.1, h.2.2.1⟩

/-- C7 counterexample: with a valid cached entry sitting under the CSV
operation's (operation, params) key — `get` at the call instant would return
it — `generateCsvReport` still performs the throttled upstream call, returns
the upstream data rather than the cached payload, and leaves the cache exactly
as it was: no cache read and no write-through appears in its event trace. -/
theorem generateCsvReport_no_cache_counterexample :
    CacheManager.get [csvRow] "csvReport" "q1" 5 = some "CACHED" ∧
    generateCsvReport [csvRow] (some "pub-1") none [] "q1" "UPSTREAM" 5
      = Except.ok ("UPSTREAM", [csvRow],
          [Ev.throttle, Ev.upstream "accounts.reports.generateCsv"]) := by
  exact ⟨rfl, rfl⟩

/-- C7 amended: the CSV report operation resolves the account, throttles, and
performs the upstream call with retry, returning the CSV data directly; it
attempts no cache read and performs no cache write — the cache state passes
through unchanged and its event trace is exactly throttle-then-upstream. -/
theorem generateCsvReport_uncached (table : List CacheRow)
    (explicitId defaultId : Option String) (accounts : List AdSenseAccount)
    (queryJson upstreamCsv : String) (now : Nat) (resolved : String)
    (hres : resolveAccountId explicitId defaultId accounts
      = Except.ok resolved) :
    generateCsvReport table explicitId defaultId accounts queryJson
        upstreamCsv now
      = Except.ok (upstreamCsv, table,
          [Ev.throttle, Ev.upstream "accounts.reports.generateCsv"]) := by
  simp [generateCsvReport, hres]

/-- C7 amended, instantiated: a concrete CSV report call on an empty cache
returns the upstream data with an unchanged (still empty) cache. -/
theorem generateCsvReport_uncached_instance :
    generateCsvReport [] (some "pub-9") none [] "q" "CSV" 0
      = Except.ok ("CSV", [],
          [Ev.throttle, Ev.upstream "accounts.reports.generateCsv"]) :=
  generateCsvReport_uncached [] (some "pub-9") none [] "q" "CSV" 0
    "accounts/pub-9" rfl

/-- C9: account resolution prefers the explicit parameter, then the configured
default, then the first listed account; explicit and default identifiers are
normalized to the `accounts/`-prefixed form; with no explicit parameter, no
default and an empty listing it fails with the locally raised
`No AdSense accounts found` error (an `Except.error` carrying that message —
not an upstream API error value). -/
theorem resolveAccountId_precedence (s d : String) (dOpt : Option String)
    (accounts : List AdSenseAccount) (a : AdSenseAccount)
    (rest : List AdSenseAccount) (hs : ¬ s = "") (hd : ¬ d = "") :
    resolveAccountId (some s) dOpt accounts
      = Except.ok (if strStartsWith s "accounts/" then s
                   else "accounts/" ++ s) ∧
    resolveAccountId none (some d) accounts
      = Except.ok (if strStartsWith d "accounts/" then d
                   else "accounts/" ++ d) ∧
    resolveAccountId none none (a :: rest) = Except.ok a.name ∧
    resolveAccountId none none [] = Except.error "No AdSense accounts found" := by
  refine ⟨?_, ?_, rfl, rfl⟩
  · simp [resolveAccountId, jsTruthy, hs]
  · simp [resolveAccountId, jsTruthy, hd]

/-- C9 witness: a bare publisher id is prefixed, an already-prefixed default
is kept, the first listed account is used as last resort, and the empty
listing raises the resolution failure. -/
theorem resolveAccountId_precedence_instance :
    resolveAccountId (some "pub-1") (some "accounts/pub-2") []
      = Except.ok "accounts/pub-1" ∧
    resolveAccountId none (some "accounts/pub-2") []
      = Except.ok "accounts/pub-2" ∧
    resolveAccountId none none [{ name := "accounts/pub-3" }]
      = Except.ok "accounts/pub-3" ∧
    resolveAccountId none none [] = Except.error "No AdSense accounts found" := by
  have h := resolveAccountId_precedence "pub-1" "accounts/pub-2"
    (some "accounts/pub-2") ([] : List AdSenseAccount)
    ({ name := "accounts/pub-3" } : AdSenseAccount) [] (by decide) (by decide)
  refine ⟨?_, ?_, h.2.2.1, h.2.2.2⟩
  · rw [h.1]; rfl
  · rw [h.2.1]; rfl

/-- C8 witness: writing payload `A` (ttl 10 at time 0) then payload `B`
(ttl 20 at time 5) under the same key leaves one row; a `get` at time 7 sees
`B`, never `A`. -/
theorem cache_upsert_overwrite_instance :
    ((CacheManager.set (CacheManager.set [] "report" "p" "A" 10 "acct" 0)
          "report" "p" "B" 20 "acct" 5).countP
        (fun r => decide (r.cache_key = generateCacheKey "report" "p"))
      = 1) ∧
    (CacheManager.get
        (CacheManager.set (CacheManager.set [] "report" "p" "A" 10 "acct" 0)
          "report" "p" "B" 20 "acct" 5) "report" "p" 7
      = if 7 < 5 + 20 then some "B" else none) ∧
    ¬ CacheManager.get
        (CacheManager.set (CacheManager.set [] "report" "p" "A" 10 "acct" 0)
          "report" "p" "B" 20 "acct" 5) "report" "p" 7
      = some "A" :=
  cache_upsert_overwrite [] "report" "p" "A" "B" "acct" "acct" 10 20 0 5 7
    (by decide)

/-- C10: at the exact expiry instant `now = expires_at`, `get` already treats
the entry as absent (validity needs `expires_at > now`), yet `clearExpired`
run at that same instant deletes nothing and `getStats` counts nothing as
expired (both use `expires_at < now`); one millisecond later the entry is both
deletable and counted as expired. -/
theorem expiry_boundary_spec (o p a qh d : String) (c e : Nat) :
    CacheManager.get [rowAt o p a qh d c e] o p e = none ∧
    CacheManager.clearExpired [rowAt o p a qh d c e] e
      = ([rowAt o p a qh d c e], 0) ∧
    (CacheManager.getStats [rowAt o p a qh d c e] e).expiredCount = 0 ∧
    CacheManager.clearExpired [rowAt o p a qh d c e] (e + 1) = ([], 1) ∧
    (CacheManager.getStats [rowAt o p a qh d c e] (e + 1)).expiredCount = 1 := by
  refine ⟨?_, ?_, ?_, ?_, ?_⟩ <;>
    simp [CacheManager.get, CacheManager.clearExpired, CacheManager.getStats,
      rowAt, List.find?, Nat.lt_irrefl]
